import Mathlib

/-!
Shallow embedding of the node-feature-discovery sources file
(`sources.go` and its sibling variant).  File contents read from the
pseudo-filesystem are modelled as `Option (List Char)` (`none` = the read
itself failed, `some cs` = the bytes read, one `Char` per byte; the
attribute files hold ASCII).  The exit status of an external helper is
modelled as a `Bool` (`true` = the process ran and exited 0).  Each
`Discover` method becomes a pure function of that backend state.
-/

deriving instance DecidableEq for Except

/-- Characters trimmed by Go's `bytes.TrimSpace` (`unicode.IsSpace`),
restricted to the Latin-1 range; the sysfs attribute files hold ASCII. -/
def isGoSpace (c : Char) : Bool :=
  c = ' ' || c = Char.ofNat 9 || c = Char.ofNat 10 || c = Char.ofNat 11 ||
  c = Char.ofNat 12 || c = Char.ofNat 13 || c = Char.ofNat 0x85 || c = Char.ofNat 0xA0

/-- Go `bytes.TrimSpace`: drop leading and trailing whitespace. -/
def trimSpace (cs : List Char) : List Char :=
  ((cs.dropWhile isGoSpace).reverse.dropWhile isGoSpace).reverse

/-- Decimal digit value, as in Go's `strconv.ParseInt` with base 10. -/
def digitVal (c : Char) : Option Nat :=
  if '0' ≤ c ∧ c ≤ '9' then some (c.toNat - '0'.toNat) else none

/-- Parse a non-empty all-digit string to a `Nat` (helper for `goAtoi`). -/
def parseDigitsAux : List Char → Nat → Option Nat
  | [], acc => some acc
  | c :: rest, acc =>
    match digitVal c with
    | none => none
    | some d => parseDigitsAux rest (acc * 10 + d)

/-- Parse one-or-more decimal digits; the empty string is a syntax error. -/
def parseDigits : List Char → Option Nat
  | [] => none
  | cs => parseDigitsAux cs 0

/-- Go `strconv.Atoi` (= `ParseInt(s, 10, 0)` on a 64-bit platform): an
optional sign followed by one or more decimal digits; out-of-range values
yield an error (`none`), as do the empty string and any non-digit. -/
def goAtoi (s : List Char) : Option Int :=
  match s with
  | '+' :: rest =>
      (parseDigits rest).bind fun n =>
        if n ≤ 9223372036854775807 then some (n : Int) else none
  | '-' :: rest =>
      (parseDigits rest).bind fun n =>
        if n ≤ 9223372036854775808 then some (-(n : Int)) else none
  | _ =>
      (parseDigits s).bind fun n =>
        if n ≤ 9223372036854775807 then some (n : Int) else none

/-! ## RDT source (`rdtSource.Discover`, identical in both variants)

The probe shells out to three helper scripts (`mon-discovery`,
`l3-alloc-discovery`, `l2-alloc-discovery`); only each command's success
is consulted (`cmd.Run() == nil`), so the backend is three booleans. -/

/-- Backend state for `rdtSource.Discover`: whether each helper script
runs and exits 0 (`cmd.Run()` returns nil). -/
structure RdtBackend where
  monOk : Bool
  l3Ok : Bool
  l2Ok : Bool
deriving DecidableEq, Repr

/-- `rdtSource.Discover`: appends one token per zero-exit helper, in
program order; a failing helper is only logged; always returns nil error. -/
def rdtDiscover (b : RdtBackend) : Except String (List String) :=
  let features : List String := []
  let features := if b.monOk then features ++ ["RDTMON"] else features
  let features := if b.l3Ok then features ++ ["RDTL3CA"] else features
  let features := if b.l2Ok then features ++ ["RDTL2CA"] else features
  Except.ok features

/-! ## PState source (`pstateSource.Discover`, identical in both variants) -/

/-- Possible outcomes of a Go function that may also crash at runtime:
`crash` models a Go runtime panic (here: index out of range). -/
inductive GoResult where
  | ok (features : List String)
  | error (msg : String)
  | crash
deriving DecidableEq, Repr

/-- `pstateSource.Discover`: reads
`/sys/devices/system/cpu/intel_pstate/no_turbo`; a failed read is a
probe error; otherwise `bytes[0]` is inspected unguarded — on a
zero-byte read that access is out of range (Go runtime panic, modelled
as `crash`); first byte `'0'` emits `"turbo"`, anything else emits
nothing. -/
def pstateDiscover (file : Option (List Char)) : GoResult :=
  match file with
  | none => GoResult.error "can't detect whether turbo boost is enabled"
  | some [] => GoResult.crash
  | some (b :: _) =>
      if b = '0' then GoResult.ok ["turbo"] else GoResult.ok []

/-! ## CPUID source (`cpuidSource.Discover`, identical in both variants)

`cpuid.CPU.Features.Strings()` is a library query of immutable state set
at process start; the backend is that list of flag strings. -/

/-- `cpuidSource.Discover`: returns the platform's CPU feature strings. -/
def cpuidDiscover (cpuFlags : List String) : Except String (List String) :=
  Except.ok cpuFlags

/-! ## Network source, direct-access variant (`networkSource.Discover` in
the unnamed sibling file; `Name()` = `"network"`)

`net.Interfaces()` yields interfaces with flags; for each up,
non-loopback interface the probe reads `sriov_totalvfs` and (if that
parses positive) `sriov_numvfs` under `/sys/class/net/<name>/device/`. -/

/-- One entry of the `net.Interfaces()` listing together with the two
sysfs attribute files the probe may read for it.  `up`/`loopback` model
`strings.Contains(flags.String(), "up"/"loopback")` (no flag name other
than `up` and `loopback` contains either word). -/
structure NetIface where
  name : List Char
  up : Bool
  loopback : Bool
  totalvfsFile : Option (List Char)
  numvfsFile : Option (List Char)
deriving DecidableEq, Repr

/-- The interface loop of the direct-access `networkSource.Discover`,
returning the features appended while scanning the given interfaces:
an up, non-loopback interface whose `sriov_totalvfs` parses > 0
contributes `"sriov"`; if additionally its `sriov_numvfs` parses > 0,
`"sriov-configured"` is appended and the loop breaks; any read or parse
failure skips to the next interface. -/
def networkScan : List NetIface → List String
  | [] => []
  | i :: rest =>
    if i.up && !i.loopback then
      match i.totalvfsFile with
      | none => networkScan rest
      | some totalBytes =>
        match goAtoi (trimSpace totalBytes) with
        | none => networkScan rest
        | some t =>
          if t > 0 then
            "sriov" ::
              (match i.numvfsFile with
               | none => networkScan rest
               | some numBytes =>
                 match goAtoi (trimSpace numBytes) with
                 | none => networkScan rest
                 | some n =>
                   if n > 0 then ["sriov-configured"]
                   else networkScan rest)
          else networkScan rest
    else networkScan rest

/-- Direct-access `networkSource.Discover`: a failure of
`net.Interfaces()` itself (`none`) is a probe error; otherwise the scan
runs and the probe succeeds. -/
def networkDiscover (ifaces : Option (List NetIface)) :
    Except String (List String) :=
  match ifaces with
  | none => Except.error "can't obtain the network interfaces details"
  | some l => Except.ok (networkScan l)

/-! ## Network source, mounted-filesystem variant (`networkSource.Discover`
in `sources.go`; `Name()` = `"netid"`)

`ioutil.ReadDir("/hostsys/class/net")` yields directory entries; for
each, `/hostsys/class/net/<name>/device/sriov_numvfs` is read and the
parsed values are summed. -/

/-- One directory entry under the mounted sysfs view with its
`sriov_numvfs` attribute file. -/
structure NetDirEntry where
  name : List Char
  numvfsFile : Option (List Char)
deriving DecidableEq, Repr

/-- Reduction of an `Int` into the range of a Go `int` on a 64-bit
platform, `[-2^63, 2^63)`, by two's-complement wrap-around; Go's `+=`
on `int` wraps on overflow. -/
def wrap64 (x : Int) : Int :=
  (x + 9223372036854775808) % 18446744073709551616 - 9223372036854775808

/-- The accumulation loop of the mounted-filesystem
`networkSource.Discover`: per entry, a read failure, a zero-byte read,
or a non-numeric value skips the entry; otherwise the parsed value is
added to the running total `total_num_vfs`, a Go `int` (64-bit
two's-complement, so the addition wraps on overflow). -/
def netidScan : List NetDirEntry → Int → Int
  | [], total => total
  | e :: rest, total =>
    match e.numvfsFile with
    | none => netidScan rest total
    | some bytesReceived =>
      let num := trimSpace bytesReceived
      if bytesReceived.length = 0 then netidScan rest total
      else
        match goAtoi num with
        | none => netidScan rest total
        | some n => netidScan rest (wrap64 (total + n))

/-- Mounted-filesystem `networkSource.Discover`: a failure of the
directory listing itself (`none`) is a probe error; otherwise `"SRIOV"`
is emitted exactly when the accumulated total is positive. -/
def netidDiscover (entries : Option (List NetDirEntry)) :
    Except String (List String) :=
  match entries with
  | none => Except.error "can't obtain the network interfaces"
  | some es =>
    let total := netidScan es 0
    Except.ok (if total > 0 then ["SRIOV"] else [])

/-! ## Derived predicates used to state the claims -/

/-- An interface qualifies for the `"sriov"` (capability present) token
in the direct-access variant: up, not loopback, and `sriov_totalvfs`
reads and parses to a positive value. -/
def qualifiesPresent (i : NetIface) : Bool :=
  i.up && !i.loopback &&
    (match i.totalvfsFile with
     | none => false
     | some totalBytes =>
       match goAtoi (trimSpace totalBytes) with
       | none => false
       | some t => decide (t > 0))

/-- An interface triggers the first-match break of the direct-access
variant: it qualifies for `"sriov"` and its `sriov_numvfs` reads and
parses to a positive value. -/
def triggersBreak (i : NetIface) : Bool :=
  qualifiesPresent i &&
    (match i.numvfsFile with
     | none => false
     | some numBytes =>
       match goAtoi (trimSpace numBytes) with
       | none => false
       | some n => decide (n > 0))

/-- The `sriov_totalvfs` attribute of an interface fails (absent,
unreadable, or non-numeric after trimming) in the direct-access variant. -/
def totalAttrFails (i : NetIface) : Bool :=
  match i.totalvfsFile with
  | none => true
  | some totalBytes => (goAtoi (trimSpace totalBytes)).isNone

/-- The value the mounted-filesystem loop adds to its running total for
one directory entry, `none` when the entry is skipped (read failure,
zero-byte read, or non-numeric value). -/
def entryParsedVf (e : NetDirEntry) : Option Int :=
  match e.numvfsFile with
  | none => none
  | some bytesReceived =>
    if bytesReceived.length = 0 then none
    else goAtoi (trimSpace bytesReceived)

/-- Threads a source's receiver state through two consecutive
`Discover` calls over one fixed backend and returns both results.  Every
source struct in the file is empty (`struct{}`), so the receiver state
type is `Unit`. -/
def callTwice {σ β ρ : Type} (f : σ → β → ρ × σ) (s : σ) (b : β) : ρ × ρ :=
  let r1 := f s b
  let r2 := f r1.2 b
  (r1.1, r2.1)

/-- `cpuidSource.Discover` with its (empty) receiver state explicit. -/
def cpuidDiscoverSt (s : Unit) (flags : List String) :
    Except String (List String) × Unit := (cpuidDiscover flags, s)

/-- `rdtSource.Discover` with its (empty) receiver state explicit. -/
def rdtDiscoverSt (s : Unit) (b : RdtBackend) :
    Except String (List String) × Unit := (rdtDiscover b, s)

/-- `pstateSource.Discover` with its (empty) receiver state explicit. -/
def pstateDiscoverSt (s : Unit) (file : Option (List Char)) :
    GoResult × Unit := (pstateDiscover file, s)

/-- Direct-access `networkSource.Discover` with its (empty) receiver
state explicit. -/
def networkDiscoverSt (s : Unit) (ifaces : Option (List NetIface)) :
    Except String (List String) × Unit := (networkDiscover ifaces, s)

/-- Mounted-filesystem `networkSource.Discover` with its (empty)
receiver state explicit. -/
def netidDiscoverSt (s : Unit) (entries : Option (List NetDirEntry)) :
    Except String (List String) × Unit := (netidDiscover entries, s)

/-! ## Concrete backend states used as test inputs -/

/-- An up, non-loopback interface with `sriov_totalvfs` = "4" and
`sriov_numvfs` = "0". -/
def ifaceT4N0 : NetIface :=
  ⟨['e', 't', 'h', '0'], true, false, some ['4'], some ['0']⟩

/-- A second up, non-loopback interface with `sriov_totalvfs` = "4" and
`sriov_numvfs` = "0". -/
def ifaceT4N0b : NetIface :=
  ⟨['e', 't', 'h', '1'], true, false, some ['4'], some ['0']⟩

/-- An up, non-loopback interface with `sriov_totalvfs` = "8" and
`sriov_numvfs` = "2" (triggers the first-match break). -/
def ifaceT8N2 : NetIface :=
  ⟨['e', 't', 'h', '2'], true, false, some ['8'], some ['2']⟩

/-- An up, non-loopback interface whose `sriov_totalvfs` cannot be read. -/
def ifaceNoTotal : NetIface :=
  ⟨['e', 't', 'h', '3'], true, false, none, none⟩

/-- A directory entry whose `sriov_numvfs` reads "-4". -/
def entNeg : NetDirEntry := ⟨['v', 'f', '0'], some ['-', '4']⟩

/-- A directory entry whose `sriov_numvfs` reads "3". -/
def entPos : NetDirEntry := ⟨['v', 'f', '1'], some ['3']⟩

/-- A directory entry whose `sriov_numvfs` reads the non-numeric "x". -/
def entBad : NetDirEntry := ⟨['v', 'f', '2'], some ['x']⟩

/-! ## Structural lemmas about the two interface loops -/

/-- One step of the direct-access interface loop, phrased through the
derived predicates: a non-qualifying interface contributes nothing, a
qualifying one contributes `"sriov"`, and a break-triggering one
additionally contributes `"sriov-configured"` and stops the scan. -/
theorem networkScan_cons (i : NetIface) (rest : List NetIface) :
    networkScan (i :: rest) =
      if qualifiesPresent i then
        if triggersBreak i then ["sriov", "sriov-configured"]
        else "sriov" :: networkScan rest
      else networkScan rest := by
  rcases i with ⟨nm, up, lb, tf, nf⟩
  cases up
  · simp [networkScan, qualifiesPresent]
  · cases lb
    · cases tf
      · simp [networkScan, qualifiesPresent]
      · rename_i tb
        cases htb : goAtoi (trimSpace tb)
        · simp [networkScan, qualifiesPresent, htb]
        · rename_i t
          by_cases ht : t > 0
          · cases nf
            · simp [networkScan, qualifiesPresent, triggersBreak, htb, ht]
            · rename_i nb
              cases hnb : goAtoi (trimSpace nb)
              · simp [networkScan, qualifiesPresent, triggersBreak, htb, hnb, ht]
              · rename_i n
                by_cases hn : n > 0
                · simp [networkScan, qualifiesPresent, triggersBreak, htb, hnb, ht, hn]
                · simp [networkScan, qualifiesPresent, triggersBreak, htb, hnb, ht, hn]
          · simp [networkScan, qualifiesPresent, htb, ht]
    · simp [networkScan, qualifiesPresent]

/-- As long as no interface of a prefix triggers the first-match break,
the direct-access scan distributes over list append. -/
theorem networkScan_append (pre l : List NetIface)
    (h : ∀ j ∈ pre, triggersBreak j = false) :
    networkScan (pre ++ l) = networkScan pre ++ networkScan l := by
  induction pre with
  | nil => simp [networkScan]
  | cons j pre ih =>
    have hj : triggersBreak j = false := h j (List.mem_cons_self j pre)
    have hpre : ∀ k ∈ pre, triggersBreak k = false :=
      fun k hk => h k (List.mem_cons_of_mem j hk)
    rw [List.cons_append, networkScan_cons, networkScan_cons j pre, hj]
    by_cases hq : qualifiesPresent j = true
    · simp [hq, ih hpre]
    · simp [hq, ih hpre]

/-- The mounted-filesystem accumulation loop folds the wrapping 64-bit
addition of every per-entry parsed value over its starting total. -/
theorem netidScan_eq_fold (es : List NetDirEntry) (total : Int) :
    netidScan es total =
      (es.filterMap entryParsedVf).foldl (fun t n => wrap64 (t + n)) total := by
  induction es generalizing total with
  | nil => simp [netidScan]
  | cons e rest ih =>
    rcases e with ⟨nm, f⟩
    cases f
    · simp [netidScan, entryParsedVf, ih]
    · rename_i bs
      by_cases hl : bs.length = 0
      · simp [netidScan, entryParsedVf, hl, ih]
      · cases hb : goAtoi (trimSpace bs)
        · simp [netidScan, entryParsedVf, hl, hb, ih]
        · rename_i n
          simp [netidScan, entryParsedVf, hl, hb, ih]

/-- An interface whose `sriov_totalvfs` attribute fails never qualifies
for the capability-present token. -/
theorem totalAttrFails_not_qualifies (i : NetIface)
    (h : totalAttrFails i = true) : qualifiesPresent i = false := by
  rcases i with ⟨nm, up, lb, tf, nf⟩
  cases tf
  · simp [qualifiesPresent]
  · rename_i tb
    cases hb : goAtoi (trimSpace tb)
    · simp [qualifiesPresent, hb]
    · simp [totalAttrFails, hb] at h

/-! ## Claims -/

/-- C1 counterexample: with two up, non-loopback interfaces whose
`sriov_totalvfs` both read "4" and whose `sriov_numvfs` both read "0",
the direct-access probe emits the capability-present token once per
qualifying interface — twice, not exactly once — even though a
qualifying interface exists. -/
theorem C1_counterexample :
    networkDiscover (some [ifaceT4N0, ifaceT4N0b]) =
      Except.ok ["sriov", "sriov"] ∧
    qualifiesPresent ifaceT4N0 = true ∧
    List.count "sriov" ["sriov", "sriov"] ≠ 1 := by decide

/-- C1 (amended): in the direct-access mode, the interface scan's result
contains the capability-present token `"sriov"` if and only if some
interface qualifies (up, non-loopback, with `sriov_totalvfs` parsing to
a value > 0); the token is appended once per qualifying interface
examined, so it is never omitted when a qualifying interface exists but
may occur more than once.  (The mounted-filesystem mode never consults
the total-virtual-functions attribute.) -/
theorem C1_theorem (ifaces : List NetIface) :
    "sriov" ∈ networkScan ifaces ↔
      ∃ i ∈ ifaces, qualifiesPresent i = true := by
  induction ifaces with
  | nil => simp [networkScan]
  | cons i rest ih =>
    rw [networkScan_cons]
    by_cases hq : qualifiesPresent i = true
    · by_cases hb : triggersBreak i = true
      · simp [hq, hb]
      · simp [hq, hb, ih]
    · simp [hq, ih]

/-- C2: the mounted-filesystem ("netid") probe accumulates the parsed
`sriov_numvfs` value of every enumerated entry into a grand total (a Go
`int`, so each addition wraps at 64 bits) and returns exactly
`["SRIOV"]` when that grand total is strictly positive and the empty
list otherwise, with no error. -/
theorem C2_theorem (entries : List NetDirEntry) :
    netidDiscover (some entries) =
      Except.ok
        (if (entries.filterMap entryParsedVf).foldl
              (fun t n => wrap64 (t + n)) 0 > 0
         then ["SRIOV"] else []) := by
  simp [netidDiscover, netidScan_eq_fold]

/-- C3: in the direct-access ("network") mode the `"sriov-configured"`
token occurs at most once in any result, and scanning stops at the
first interface whose configured-virtual-functions attribute parses
positive: whatever interfaces follow it, the result is exactly the
tokens of the preceding interfaces followed by `"sriov"` and
`"sriov-configured"` for the break-triggering interface. -/
theorem C3_theorem (ifaces : List NetIface) :
    List.count "sriov-configured" (networkScan ifaces) ≤ 1 ∧
    ∀ pre i rest, ifaces = pre ++ i :: rest →
      (∀ j ∈ pre, triggersBreak j = false) → triggersBreak i = true →
      networkScan ifaces = networkScan pre ++ ["sriov", "sriov-configured"] := by
  constructor
  · induction ifaces with
    | nil => simp [networkScan]
    | cons i rest ih =>
      rw [networkScan_cons]
      by_cases hq : qualifiesPresent i = true
      · by_cases hb : triggersBreak i = true
        · simp [hq, hb]
        · simp [hq, hb, List.count_cons, ih]
      · simp [hq, ih]
  · rintro pre i rest rfl hpre hbrk
    have hq : qualifiesPresent i = true := by
      have h := hbrk
      unfold triggersBreak at h
      simp only [Bool.and_eq_true] at h
      exact h.1
    rw [networkScan_append pre (i :: rest) hpre, networkScan_cons]
    simp [hq, hbrk]

/-- C3 witness: over interfaces (total=4, configured=0), (total=8,
configured=2), (total=4, configured=0), the scan stops at the second
interface and the configured token appears at most once. -/
theorem C3_witness :
    networkScan [ifaceT4N0, ifaceT8N2, ifaceT4N0b] =
      networkScan [ifaceT4N0] ++ ["sriov", "sriov-configured"] ∧
    List.count "sriov-configured"
      (networkScan [ifaceT4N0, ifaceT8N2, ifaceT4N0b]) ≤ 1 :=
  ⟨(C3_theorem [ifaceT4N0, ifaceT8N2, ifaceT4N0b]).2 [ifaceT4N0] ifaceT8N2
      [ifaceT4N0b] rfl (by decide) (by decide),
   (C3_theorem [ifaceT4N0, ifaceT8N2, ifaceT4N0b]).1⟩

/-- C4: the power-state probe returns `["turbo"]` when the backing file
reads successfully with first byte `'0'`, the empty list (no error) on
any other first byte, and an error when the file cannot be read. -/
theorem C4_theorem (file : Option (List Char)) :
    (∀ rest, file = some ('0' :: rest) →
      pstateDiscover file = GoResult.ok ["turbo"]) ∧
    (∀ b rest, file = some (b :: rest) → b ≠ '0' →
      pstateDiscover file = GoResult.ok []) ∧
    (file = none → ∃ msg, pstateDiscover file = GoResult.error msg) := by
  refine ⟨?_, ?_, ?_⟩
  · rintro rest rfl
    simp [pstateDiscover]
  · rintro b rest rfl hb
    simp [pstateDiscover, hb]
  · rintro rfl
    exact ⟨_, rfl⟩

/-- C4 witness: the three contract cases at the concrete contents "0",
"1", and an unreadable file. -/
theorem C4_witness :
    pstateDiscover (some ['0']) = GoResult.ok ["turbo"] ∧
    pstateDiscover (some ['1']) = GoResult.ok [] ∧
    (∃ msg, pstateDiscover none = GoResult.error msg) :=
  ⟨(C4_theorem (some ['0'])).1 [] rfl,
   (C4_theorem (some ['1'])).2.1 '1' [] rfl (by decide),
   (C4_theorem none).2.2 rfl⟩

/-- C5: for every combination of helper exit statuses the rdt probe
returns nil error and a list holding exactly the tokens of the zero-exit
helpers, as a subsequence of the stable order
`["RDTMON", "RDTL3CA", "RDTL2CA"]`. -/
theorem C5_theorem (b : RdtBackend) :
    ∃ fs, rdtDiscover b = Except.ok fs ∧
      ("RDTMON" ∈ fs ↔ b.monOk = true) ∧
      ("RDTL3CA" ∈ fs ↔ b.l3Ok = true) ∧
      ("RDTL2CA" ∈ fs ↔ b.l2Ok = true) ∧
      List.Sublist fs ["RDTMON", "RDTL3CA", "RDTL2CA"] := by
  rcases b with ⟨m, l3, l2⟩
  cases m <;> cases l3 <;> cases l2 <;>
    exact ⟨_, rfl, by decide, by decide, by decide, by decide⟩

/-- C6: both network-probe variants error exactly when interface
enumeration itself fails (and then return no feature list), while a
per-interface attribute failure only skips that interface, leaving the
scan of the remaining interfaces unchanged. -/
theorem C6_theorem :
    (∀ st, (∃ msg, networkDiscover st = Except.error msg) ↔ st = none) ∧
    (∀ st, (∃ msg, netidDiscover st = Except.error msg) ↔ st = none) ∧
    (∀ i rest, totalAttrFails i = true →
      networkScan (i :: rest) = networkScan rest) ∧
    (∀ e rest total, entryParsedVf e = none →
      netidScan (e :: rest) total = netidScan rest total) := by
  refine ⟨?_, ?_, ?_, ?_⟩
  · intro st
    cases st
    · exact ⟨fun _ => rfl, fun _ => ⟨_, rfl⟩⟩
    · simp [networkDiscover]
  · intro st
    cases st
    · exact ⟨fun _ => rfl, fun _ => ⟨_, rfl⟩⟩
    · simp [netidDiscover]
  · intro i rest h
    rw [networkScan_cons, totalAttrFails_not_qualifies i h]
    simp
  · intro e rest total h
    rcases e with ⟨nm, f⟩
    cases f
    · simp [netidScan]
    · rename_i bs
      by_cases hl : bs.length = 0
      · simp [netidScan, hl]
      · cases hb : goAtoi (trimSpace bs)
        · simp [netidScan, hl, hb]
        · simp [entryParsedVf, hl, hb] at h

/-- C6 witness: a failed enumeration errors; an interface with an
unreadable `sriov_totalvfs` and an entry with a non-numeric
`sriov_numvfs` are each skipped without affecting the rest. -/
theorem C6_witness :
    (∃ msg, networkDiscover none = Except.error msg) ∧
    networkScan [ifaceNoTotal, ifaceT8N2] = networkScan [ifaceT8N2] ∧
    netidScan [entBad, entPos] 0 = netidScan [entPos] 0 :=
  ⟨(C6_theorem.1 none).2 rfl,
   C6_theorem.2.2.1 ifaceNoTotal [ifaceT8N2] (by decide),
   C6_theorem.2.2.2 entBad [entPos] 0 (by decide)⟩

/-- C7: every source's receiver is an empty struct, so threading the
receiver state through two consecutive `Discover` calls over one fixed
backend state yields identical results for each of the five sources. -/
theorem C7_theorem (flags : List String) (rb : RdtBackend)
    (pfile : Option (List Char)) (nifs : Option (List NetIface))
    (nents : Option (List NetDirEntry)) :
    (callTwice cpuidDiscoverSt () flags).1 =
      (callTwice cpuidDiscoverSt () flags).2 ∧
    (callTwice rdtDiscoverSt () rb).1 = (callTwice rdtDiscoverSt () rb).2 ∧
    (callTwice pstateDiscoverSt () pfile).1 =
      (callTwice pstateDiscoverSt () pfile).2 ∧
    (callTwice networkDiscoverSt () nifs).1 =
      (callTwice networkDiscoverSt () nifs).2 ∧
    (callTwice netidDiscoverSt () nents).1 =
      (callTwice netidDiscoverSt () nents).2 :=
  ⟨rfl, rfl, rfl, rfl, rfl⟩

/-- C9: the power-state probe crashes (Go runtime panic: unguarded
`bytes[0]` on a zero-length read) exactly when the backing file reads
successfully with empty content; on every other backend state it
returns a result or an error. -/
theorem C9_theorem (file : Option (List Char)) :
    pstateDiscover file = GoResult.crash ↔ file = some [] := by
  cases file with
  | none => simp [pstateDiscover]
  | some content =>
    cases content with
    | nil => simp [pstateDiscover]
    | cons b bs =>
      simp only [pstateDiscover]
      split <;> simp

/-- C10: a negative `sriov_numvfs` value is parsed and added to the
running total, so with entries reading "-4" and "3" the grand total is
-1 and the `"SRIOV"` token is omitted even though one entry has a
positive configured count. -/
theorem C10_theorem :
    entryParsedVf entNeg = some (-4) ∧
    entryParsedVf entPos = some 3 ∧
    netidScan [entNeg, entPos] 0 = -1 ∧
    netidDiscover (some [entNeg, entPos]) = Except.ok [] := by decide
